import Mathlib

/-!
Verification of the dev-start bootstrap pipeline.

This file gives a shallow embedding of the core of the `dev-start` repository
(`src/detector.py`, `src/repo_manager.py`, `src/cli.py`,
`src/installers/base.py`, `src/installers/java_installer.py`,
`src/installers/git_installer.py`, `src/installers/nodejs_installer.py`,
`src/installers/python_installer.py`) and proves properties of it.

Effectful collaborators (the network, the filesystem, subprocesses, the
interactive prompt) are modelled by explicit environment records holding the
outcome each call would produce; the control flow of every embedded function
is translated branch-for-branch from the Python source.
-/

namespace DevStart

/-! ## Technology detector (`src/detector.py`) -/

/-- The `Technology` enum of `detector.py`. -/
inductive Technology
  | java_springboot
  | java_maven
  | java_gradle
  | python
  | nodejs
  | unknown
deriving DecidableEq, Repr

/-- A cloned repository as the detector sees it: whether the path exists,
the names of the files in its root (`_get_root_files`, already including the
degradation of read errors to an empty listing), and for each root file
whether it can be read and what it contains. -/
structure Repo where
  pathExists : Bool
  rootFiles : List String
  readable : String → Bool
  content : String → String

/-- Substring test on character lists: some tail of `s` starts with `pat`. -/
def listInfix (pat s : List Char) : Bool :=
  s.tails.any (fun t => pat.isPrefixOf t)

/-- Python's `str.lower()` as a character list (ASCII case folding, which is
all the marker indicators need). -/
def lowerStr (s : String) : List Char :=
  s.data.map Char.toLower

/-- Content indicators of a Spring Boot project (`DETECTION_PATTERNS`). -/
def springIndicators : List String :=
  ["spring-boot", "springframework", "org.springframework"]

/-- Marker files inspected for Spring indicators (`DETECTION_PATTERNS`). -/
def springMarkerFiles : List String :=
  ["pom.xml", "build.gradle", "build.gradle.kts", "gradlew"]

/-- `TechnologyDetector._check_indicators`: lowercase containment of any
indicator in the file content; read failures degrade to `false`. -/
def check_indicators (repo : Repo) (file : String) (indicators : List String) : Bool :=
  if repo.readable file then
    indicators.any (fun ind => listInfix (lowerStr ind) (lowerStr (repo.content file)))
  else
    false

/-- `TechnologyDetector._is_spring_boot_project`. -/
def is_spring_boot_project (repo : Repo) (files : List String) : Bool :=
  springMarkerFiles.any (fun f => files.contains f && check_indicators repo f springIndicators)

/-- `TechnologyDetector._is_maven_project`. -/
def is_maven_project (files : List String) : Bool :=
  files.contains "pom.xml"

/-- The Gradle marker set used by `_is_gradle_project`. -/
def gradleProjectFiles : List String :=
  ["build.gradle", "build.gradle.kts", "settings.gradle", "settings.gradle.kts"]

/-- `TechnologyDetector._is_gradle_project`. -/
def is_gradle_project (files : List String) : Bool :=
  gradleProjectFiles.any (fun f => files.contains f)

/-- Python marker files (`DETECTION_PATTERNS`). -/
def pythonMarkerFiles : List String :=
  ["requirements.txt", "setup.py", "pyproject.toml", "Pipfile", "setup.cfg"]

/-- Node.js marker files (`DETECTION_PATTERNS`). -/
def nodejsMarkerFiles : List String :=
  ["package.json", "package-lock.json", "yarn.lock", "pnpm-lock.yaml"]

/-- `TechnologyDetector._matches_technology` for a pattern with no content
indicators: a marker file being present suffices. -/
def matches_marker_files (files markers : List String) : Bool :=
  markers.any (fun f => files.contains f)

/-- `TechnologyDetector.detect`, branch for branch.  Note that the source
returns `Technology.JAVA_SPRINGBOOT` for plain Maven and plain Gradle
projects as well (its comment: "Use same installer"). -/
def detect (repo : Repo) : Technology :=
  if !repo.pathExists then Technology.unknown
  else
    let files := repo.rootFiles
    if is_spring_boot_project repo files then Technology.java_springboot
    else if is_maven_project files then Technology.java_springboot
    else if is_gradle_project files then Technology.java_springboot
    else if matches_marker_files files pythonMarkerFiles then Technology.python
    else if matches_marker_files files nodejsMarkerFiles then Technology.nodejs
    else Technology.unknown

/-- A repository whose root holds only a `pom.xml` with no Spring indicator. -/
def mavenOnlyRepo : Repo where
  pathExists := true
  rootFiles := ["pom.xml"]
  readable := fun _ => true
  content := fun _ => "<project><modelVersion>4.0.0</modelVersion></project>"

/-! ## Bounded-retry directory removal (`DevStartCLI.safe_rmtree`, `src/cli.py`) -/

/-- Outcome of one loop iteration of `safe_rmtree`: the path check found
nothing, `shutil.rmtree` succeeded, it raised `PermissionError` (a lock), or
it raised some other `OSError`. -/
inductive RmOutcome
  | notExistsO
  | removedO
  | permErrorO
  | osErrorO
deriving DecidableEq, Repr

/-- Result of `safe_rmtree` together with instrumentation: the returned
boolean, the number of `shutil.rmtree` calls performed, and the number of
`time.sleep` calls performed. -/
structure RmResult where
  result : Bool
  attempts : Nat
  sleeps : Nat
deriving DecidableEq, Repr

/-- The `for attempt in range(max_retries)` loop of `safe_rmtree`, indexed by
the current attempt `i` and the iterations remaining.  The filesystem is
modelled by `outcome`, giving the event each iteration would observe.
A `PermissionError` sleeps and retries unless this was the last iteration
(`attempt < max_retries - 1` in the source, i.e. `remaining > 1` here); any
other `OSError` returns `false` at once; exhausting the loop falls through to
the final `return False`. -/
def rmLoop (outcome : Nat → RmOutcome) (i : Nat) : Nat → RmResult
  | 0 => ⟨false, 0, 0⟩
  | remaining + 1 =>
    match outcome i with
    | RmOutcome.notExistsO => ⟨true, 0, 0⟩
    | RmOutcome.removedO => ⟨true, 1, 0⟩
    | RmOutcome.permErrorO =>
      if remaining = 0 then ⟨false, 1, 0⟩
      else
        let r := rmLoop outcome (i + 1) remaining
        ⟨r.result, r.attempts + 1, r.sleeps + 1⟩
    | RmOutcome.osErrorO => ⟨false, 1, 0⟩

/-- `DevStartCLI.safe_rmtree(path, max_retries)`. -/
def safe_rmtree (outcome : Nat → RmOutcome) (maxRetries : Nat) : RmResult :=
  rmLoop outcome 0 maxRetries

/-! ## Per-repository pipeline (`DevStartCLI.process_repository`, `src/cli.py`)

The collaborators invoked by one job (the prompt, `safe_rmtree` on the
pre-existing directory, URL validation, `git clone`, the detector, the
installer) are modelled by a `JobEnv` record holding the outcome each call
would produce. -/

/-- Outcomes of every effectful call `process_repository` can make, in
program order. -/
structure JobEnv where
  /-- `repo_path.exists()` when the job starts. -/
  preexists : Bool
  /-- answer to the `Do you want to overwrite it?` prompt. -/
  confirmOverwrite : Bool
  /-- result of `safe_rmtree` on the pre-existing directory. -/
  overwriteRmtreeOk : Bool
  /-- `validate_repo_url` succeeds (does not raise `InvalidURLError`). -/
  urlValid : Bool
  /-- `clone_repository` succeeds. -/
  cloneOk : Bool
  /-- result of `detector.detect(repo_path)`. -/
  tech : Technology
  /-- `installer.is_installed()`. -/
  isInstalled : Bool
  /-- `installer.install()` result. -/
  installOk : Bool
  /-- `installer.configure()` result. -/
  configureOk : Bool
  /-- result of the `safe_rmtree` performed by `_rollback`. -/
  rollbackRmtreeOk : Bool

/-- Observable outcome of one job: the boolean `process_repository` returns,
whether a clone was attempted, whether `_rollback` ran, and whether a
directory exists at the job's target path afterwards. -/
structure JobResult where
  success : Bool
  cloneAttempted : Bool
  rollbackRan : Bool
  dirExists : Bool
deriving DecidableEq, Repr

/-- `DevStartCLI._get_installer`: the lookup table maps every `Technology`
except `unknown` to an installer class. -/
def installerAvailable (t : Technology) : Bool :=
  t ≠ Technology.unknown

/-- `DevStartCLI.process_repository`, branch for branch.  The overwrite
prompt and removal of a pre-existing target directory happen before URL
validation; `_rollback` runs `safe_rmtree` on the clone and ignores its
boolean result, so a failed rollback removal leaves the directory behind. -/
def process_repository (e : JobEnv) : JobResult :=
  if e.preexists ∧ ¬e.confirmOverwrite then
    { success := false, cloneAttempted := false, rollbackRan := false, dirExists := true }
  else if e.preexists ∧ ¬e.overwriteRmtreeOk then
    { success := false, cloneAttempted := false, rollbackRan := false, dirExists := true }
  else if ¬e.urlValid then
    { success := false, cloneAttempted := false, rollbackRan := false, dirExists := false }
  else if ¬e.cloneOk then
    { success := false, cloneAttempted := true, rollbackRan := false, dirExists := false }
  else if e.tech = Technology.unknown then
    { success := false, cloneAttempted := true, rollbackRan := true,
      dirExists := ¬e.rollbackRmtreeOk }
  else if ¬installerAvailable e.tech then
    { success := false, cloneAttempted := true, rollbackRan := true,
      dirExists := ¬e.rollbackRmtreeOk }
  else if ¬e.isInstalled ∧ ¬e.installOk then
    { success := false, cloneAttempted := true, rollbackRan := true,
      dirExists := ¬e.rollbackRmtreeOk }
  else if ¬e.configureOk then
    { success := false, cloneAttempted := true, rollbackRan := true,
      dirExists := ¬e.rollbackRmtreeOk }
  else
    { success := true, cloneAttempted := true, rollbackRan := false, dirExists := true }

/-! ## Java project configuration (`JavaInstaller.configure`,
`src/installers/java_installer.py`) -/

/-- Outcomes of the effectful calls `JavaInstaller.configure` can make. -/
structure JavaConfigEnv where
  /-- `(self.project_path / 'pom.xml').exists()`. -/
  pomExists : Bool
  /-- `(self.project_path / 'build.gradle').exists()`. -/
  gradleFileExists : Bool
  /-- `self.is_maven_installed()` (a `mvn -version` probe). -/
  mavenInstalled : Bool
  /-- result of `self._install_maven(tools_dir)` when it is attempted. -/
  installMavenOk : Bool
  /-- `application.properties` already exists. -/
  appPropsExists : Bool
  /-- an HTTP proxy is configured. -/
  proxyConfigured : Bool
  /-- result of `self._run_maven_install()` (the `mvn clean install` step). -/
  mavenBuildOk : Bool
  /-- result of `self._run_gradle_build()` (the `gradle build -x test` step). -/
  gradleBuildOk : Bool

/-- Trace of one `JavaInstaller.configure` call: the returned boolean plus
which optional steps ran and how the build fared. -/
structure JavaConfigTrace where
  success : Bool
  mavenAvailable : Bool
  wroteAppProps : Bool
  ranMavenBuild : Bool
  ranGradleBuild : Bool
  buildSuccess : Bool
deriving DecidableEq, Repr

/-- `JavaInstaller.configure`, branch for branch: Maven availability is
resolved first (installing Maven on demand, with a failed installation only
skipping the dependency step), the Maven and Gradle dependency builds each
downgrade failure to a warning, and the function returns `True` on every
path. -/
def javaConfigure (c : JavaConfigEnv) : JavaConfigTrace :=
  let mavenAvailable :=
    if c.pomExists then
      if ¬c.mavenInstalled then c.installMavenOk else true
    else false
  let wroteAppProps := ¬c.appPropsExists ∧ c.pomExists
  let ranMavenBuild := c.pomExists ∧ mavenAvailable
  let ranGradleBuild := c.gradleFileExists
  let buildSuccess :=
    (ranMavenBuild ∧ c.mavenBuildOk) ∨ (ranGradleBuild ∧ c.gradleBuildOk)
  { success := true
    mavenAvailable := mavenAvailable
    wroteAppProps := wroteAppProps
    ranMavenBuild := ranMavenBuild
    ranGradleBuild := ranGradleBuild
    buildSuccess := buildSuccess }

/-! ## Checksum-verified download (`BaseInstaller.download_file`,
`src/installers/base.py`)

The network stream and `hashlib` are external collaborators: the fetched
body is a byte list and the SHA-256 hex digest function is a parameter.  The
embedding covers a completed stream (the body fully written to the
destination); the verification block then compares digests case-insensitively
and unlinks the destination on mismatch. -/

/-- Result of `download_file`: the returned boolean and whether the
destination file exists afterwards. -/
structure DownloadOutcome where
  success : Bool
  destExists : Bool
deriving DecidableEq, Repr

/-- `BaseInstaller.download_file` after a completed stream: the body has been
written (so the destination exists), the running SHA-256 digest is
`sha256hex body`, and the optional `expected_checksum` is compared
case-insensitively (`actual_checksum.lower() != expected_checksum.lower()`).
On mismatch the destination is unlinked (`missing_ok=True`) and the call
returns `False`; `unlinkOk` gives the outcome of that `unlink` call, which
can itself raise (e.g. `PermissionError` on a locked file) — the exception is
caught by the `except IOError` handler at the end of `download_file`, which
also returns `False` but leaves the file on disk. -/
def download_file (sha256hex : List Nat → String) (body : List Nat)
    (expectedChecksum : Option String) (unlinkOk : Bool) : DownloadOutcome :=
  match expectedChecksum with
  | some expected =>
    if lowerStr (sha256hex body) ≠ lowerStr expected then
      if unlinkOk then
        { success := false, destExists := false }
      else
        { success := false, destExists := true }
    else
      { success := true, destExists := true }
  | none => { success := true, destExists := true }

/-! ## Download-and-extract (`BaseInstaller.download_and_extract`,
`src/installers/base.py`) -/

/-- Python's `name.split('/')` on a character list (single-character
separator, no maxsplit). -/
def splitOnChar (sep : Char) : List Char → List (List Char)
  | [] => [[]]
  | c :: rest =>
    match splitOnChar sep rest with
    | [] => [[]]
    | h :: t => if c = sep then [] :: h :: t else (c :: h) :: t

/-- The top-level directory of one archive entry, as
`download_and_extract` computes it: `parts = name.split('/')`; the entry
contributes `parts[0]` to `root_dirs` only when `len(parts) > 1`. -/
def topDir (name : String) : Option String :=
  let parts := splitOnChar '/' name.data
  if 1 < parts.length then some (String.mk parts.headI) else none

/-- The `root_dirs` set of `download_and_extract`, as a deduplicated list. -/
def rootDirsOf (namelist : List String) : List String :=
  (namelist.filterMap topDir).dedup

/-- The `extracted_path` reported by `download_and_extract`: the unique
member of `root_dirs` when that set is a singleton, else `None`.  (The
`potential_dir.is_dir()` guard holds whenever the candidate came from an
entry `r/...`, since extracting that entry creates directory `r`.) -/
def extractedRoot (namelist : List String) : Option String :=
  let roots := rootDirsOf namelist
  if roots.length = 1 then some roots.headI else none

/-- Outcome of one filesystem/zip phase inside the `try` block of
`download_and_extract`. -/
inductive PhaseOutcome
  | okP
  | badZipP
  | permP
  | ioP
deriving DecidableEq, Repr

/-- Classified failure of `download_and_extract`. -/
inductive DaeError
  | noErrorE
  | downloadE
  | badZipE
  | permE
  | ioE
deriving DecidableEq, Repr

/-- Collaborator outcomes for one `download_and_extract` call, in program
order. -/
structure DaeEnv where
  /-- `download_file` (including its checksum verification) succeeds. -/
  downloadOk : Bool
  /-- whether the archive file is on disk after a failed download (the
  failure branches of `download_file` differ here; unused when the download
  succeeds). -/
  zipAfterFailedDownload : Bool
  /-- `zip_ref.namelist()` of the downloaded archive. -/
  namelist : List String
  /-- `extract_dir.mkdir(parents=True, exist_ok=True)` (cannot raise
  `BadZipFile`). -/
  mkdirOutcome : PhaseOutcome
  /-- `zipfile.ZipFile(zip_path, 'r')` opening (raises `BadZipFile` on a
  corrupt archive). -/
  openOutcome : PhaseOutcome
  /-- `zip_ref.extractall(extract_dir)`. -/
  extractOutcome : PhaseOutcome
  /-- the `cleanup_zip` argument (default `True`). -/
  cleanupZip : Bool
  /-- `zip_path.unlink()` in the cleanup step. -/
  unlinkOutcome : PhaseOutcome

/-- Result of `download_and_extract`: the returned pair plus whether the
downloaded archive file is still on disk and the classified error. -/
structure DaeResult where
  success : Bool
  root : Option String
  zipOnDisk : Bool
  error : DaeError
deriving DecidableEq, Repr

/-- Map the outcome of a phase that ran while the archive is on disk to a
`DaeResult`: `BadZipFile` unlinks the archive (`missing_ok=True`) before
returning, `PermissionError` and `IOError` leave it in place. -/
def daePhaseFail (o : PhaseOutcome) : DaeResult :=
  match o with
  | PhaseOutcome.badZipP =>
    { success := false, root := none, zipOnDisk := false, error := DaeError.badZipE }
  | PhaseOutcome.permP =>
    { success := false, root := none, zipOnDisk := true, error := DaeError.permE }
  | PhaseOutcome.ioP =>
    { success := false, root := none, zipOnDisk := true, error := DaeError.ioE }
  | PhaseOutcome.okP =>
    { success := false, root := none, zipOnDisk := true, error := DaeError.noErrorE }

/-- `BaseInstaller.download_and_extract`, branch for branch: download (with
optional checksum) first; then, under the `try` block, create the extraction
directory, open the archive and read `namelist`, extract everything, unlink
the archive when `cleanup_zip` is set, and report the extracted root.  The
`except` clauses delete the archive only for `BadZipFile`. -/
def download_and_extract (e : DaeEnv) : DaeResult :=
  if ¬e.downloadOk then
    { success := false, root := none, zipOnDisk := e.zipAfterFailedDownload,
      error := DaeError.downloadE }
  else if e.mkdirOutcome ≠ PhaseOutcome.okP then daePhaseFail e.mkdirOutcome
  else if e.openOutcome ≠ PhaseOutcome.okP then daePhaseFail e.openOutcome
  else if e.extractOutcome ≠ PhaseOutcome.okP then daePhaseFail e.extractOutcome
  else if e.cleanupZip ∧ e.unlinkOutcome ≠ PhaseOutcome.okP then
    daePhaseFail e.unlinkOutcome
  else
    { success := true, root := extractedRoot e.namelist,
      zipOnDisk := ¬e.cleanupZip, error := DaeError.noErrorE }

/-! ## Installer `install()` idempotence
(`src/installers/java_installer.py`, `git_installer.py`,
`nodejs_installer.py`, `python_installer.py`)

Each installer's `install()` is embedded as a function from an environment
describing the host (which tool directories exist, what each download or
extraction would do) to a result carrying the returned boolean, the number of
network download attempts performed (`download_file` calls, including those
made through `download_and_extract`), and the host state afterwards. -/

/-- Host state and collaborator outcomes for `JavaInstaller.install`. -/
structure JavaEnv where
  /-- `java_dir.exists()` for the resolved JDK version. -/
  javaDirExists : Bool
  /-- `maven_dir.exists()` (`tools/maven`). -/
  mavenDirExists : Bool
  /-- `(self.project_path / 'pom.xml').exists()`. -/
  pomExists : Bool
  /-- Java version resolved by `detect_version()` from the project files. -/
  detectedVersion : String
  /-- the JDK zip download succeeds. -/
  javaDownloadOk : Bool
  /-- extracting the JDK zip into the tools directory yields a directory
  named exactly `jdk-<version>` (the archive root name decides this). -/
  javaExtractCreatesDir : Bool
  /-- outcome of `download_file` for each Maven mirror of `MAVEN_URLS`,
  tried in order. -/
  mavenMirrorOk : List Bool
  /-- extracting the Maven zip succeeds. -/
  mavenExtractOk : Bool
  /-- the extraction produced a directory named `apache-maven*` that can be
  renamed to `maven`. -/
  apacheDirFound : Bool

/-- Result of one `install()` call. -/
structure InstallResult where
  success : Bool
  downloads : Nat
  post : JavaEnv


/-- Index of the first `true` in a list of mirror outcomes. -/
def firstTrueIdx : List Bool → Option Nat
  | [] => none
  | b :: t => if b then some 0 else (firstTrueIdx t).map (· + 1)

/-- `JavaInstaller._install_maven`, branch for branch, with `d` downloads
already performed by the caller: skip everything but environment wiring when
`tools/maven` exists; otherwise try each mirror in order until a download
succeeds, then extract, locate the `apache-maven*` directory and rename it to
`maven`. -/
def install_maven (e : JavaEnv) (d : Nat) : InstallResult :=
  if e.mavenDirExists then
    { success := true, downloads := d, post := e }
  else
    match firstTrueIdx e.mavenMirrorOk with
    | none =>
      { success := false, downloads := d + e.mavenMirrorOk.length, post := e }
    | some k =>
      if ¬e.mavenExtractOk then
        { success := false, downloads := d + k + 1, post := e }
      else if ¬e.apacheDirFound then
        { success := false, downloads := d + k + 1, post := e }
      else
        { success := true, downloads := d + k + 1,
          post := { e with mavenDirExists := true } }

/-- The Java versions with a pinned download URL (`JAVA_DOWNLOAD_URLS`). -/
def javaDownloadVersions : List String := ["17", "11"]

/-- The tail of `JavaInstaller.install` after the JDK phase: environment
wiring, then `_install_maven` when the project has a `pom.xml`. -/
def javaInstallTail (e : JavaEnv) (d : Nat) : InstallResult :=
  if e.pomExists then install_maven e d
  else { success := true, downloads := d, post := e }

/-- `JavaInstaller.install`: resolve the download version (fall back to 17),
skip the download when `tools/jdk-<version>` exists, otherwise download and
extract the JDK zip; then wire the environment and install Maven for
`pom.xml` projects. -/
def javaInstall (e : JavaEnv) : InstallResult :=
  let _downloadVersion :=
    if javaDownloadVersions.contains e.detectedVersion then e.detectedVersion else "17"
  if e.javaDirExists then
    javaInstallTail e 0
  else if ¬e.javaDownloadOk then
    { success := false, downloads := 1, post := e }
  else
    javaInstallTail { e with javaDirExists := e.javaExtractCreatesDir } 1

/-- Host state and collaborator outcomes for `GitInstaller.install`. -/
structure GitEnv where
  /-- `git_dir.exists()` (`tools/git`). -/
  gitDirExists : Bool
  /-- outcomes of the `download_and_extract` call into `git_dir`. -/
  dae : DaeEnv

/-- Result of `GitInstaller.install`. -/
structure GitInstallResult where
  success : Bool
  downloads : Nat
  post : GitEnv


/-- `GitInstaller.install`: when `tools/git` exists, only re-wire PATH and
return `True`; otherwise download and extract MinGit into `git_dir` (the
pinned 2.43.0 URL and checksum exist in `DOWNLOAD_URLS`/`DOWNLOAD_CHECKSUMS`)
and wire PATH on success. -/
def gitInstall (e : GitEnv) : GitInstallResult :=
  if e.gitDirExists then
    { success := true, downloads := 0, post := e }
  else
    let r := download_and_extract e.dae
    if ¬r.success then
      { success := false, downloads := 1, post := e }
    else
      { success := true, downloads := 1, post := { e with gitDirExists := true } }

/-- Host state and collaborator outcomes for `NodeJSInstaller.install`. -/
structure NodeEnv where
  /-- `node --version` probe succeeds (`is_installed`). -/
  nodeInstalled : Bool
  /-- `nodejs_dir.exists()` (`tools/nodejs`). -/
  nodejsDirExists : Bool
  /-- outcomes of the `download_and_extract` call into the tools directory. -/
  dae : DaeEnv
  /-- the `extracted_dir.rename(nodejs_dir)` call succeeds (its `OSError` is
  downgraded to a warning). -/
  renameOk : Bool

/-- Result of `NodeJSInstaller.install`. -/
structure NodeInstallResult where
  success : Bool
  downloads : Nat
  post : NodeEnv


/-- `NodeJSInstaller.install`: short-circuit when `node` already answers;
otherwise, when `tools/nodejs` is missing, download and extract the pinned
Node.js archive, rename the reported root to `nodejs` (ignoring a rename
failure), and wire the environment; the call then returns `True`. -/
def nodejsInstall (e : NodeEnv) : NodeInstallResult :=
  if e.nodeInstalled then
    { success := true, downloads := 0, post := e }
  else if e.nodejsDirExists then
    { success := true, downloads := 0, post := e }
  else
    let r := download_and_extract e.dae
    if ¬r.success then
      { success := false, downloads := 1, post := e }
    else
      { success := true, downloads := 1,
        post := { e with nodejsDirExists := r.root.isSome ∧ e.renameOk } }

/-- Host state for `PythonInstaller.install`. -/
structure PyEnv where
  /-- `python --version` probe succeeds (`is_installed`). -/
  pythonInstalled : Bool

/-- Result of `PythonInstaller.install`: the installer never downloads
anything (installation is manual on this platform). -/
structure PyInstallResult where
  success : Bool
  downloads : Nat
  post : PyEnv


/-- `PythonInstaller.install`: `True` when Python already answers, otherwise
it only prints the manual-download instructions and returns `False`. -/
def pythonInstall (e : PyEnv) : PyInstallResult :=
  if e.pythonInstalled then
    { success := true, downloads := 0, post := e }
  else
    { success := false, downloads := 0, post := e }

/-! ## Repository URL validation (`RepositoryManager.validate_repo_url`,
`src/repo_manager.py`)

`urllib.parse.urlparse` is embedded far enough to split scheme, network
location and path for the generic `scheme://host/path` shapes the validator
handles; the validator itself is translated rule for rule. -/

/-- Result of `validate_repo_url`: success, or the raised `InvalidURLError`
with its reason. -/
inductive ValidationResult
  | okV
  | invalidV (reason : String)
deriving DecidableEq, Repr

/-- Characters allowed inside a URL scheme (`scheme_chars` of
`urllib.parse`). -/
def isSchemeChar (c : Char) : Bool :=
  c.isAlpha || c.isDigit || c = '+' || c = '-' || c = '.'

/-- Relevant components of `urllib.parse.urlparse`: `scheme`, `netloc`,
`path` (query and fragment are split off the path). -/
structure ParsedUrl where
  scheme : String
  netloc : String
  path : String
deriving DecidableEq, Repr

/-- Scheme splitting of `urlsplit`: a leading run of scheme characters whose
first character is an ASCII letter, terminated by a colon, is the scheme
(lowercased); otherwise there is no scheme. -/
def splitScheme (cs : List Char) : String × List Char :=
  let pre := cs.takeWhile isSchemeChar
  let rest := cs.dropWhile isSchemeChar
  match rest, pre with
  | ':' :: tail, c :: _ =>
    if c.isAlpha then (String.mk (pre.map Char.toLower), tail) else ("", cs)
  | _, _ => ("", cs)

/-- Network-location splitting of `urlsplit`: after a leading `//`, the
netloc runs until the next `/`, `?` or `#`. -/
def splitNetloc (cs : List Char) : String × List Char :=
  match cs with
  | '/' :: '/' :: rest =>
    let stop := fun (c : Char) => c = '/' || c = '?' || c = '#'
    (String.mk (rest.takeWhile (fun c => !stop c)), rest.dropWhile (fun c => !stop c))
  | _ => ("", cs)

/-- `urllib.parse.urlparse` restricted to the components the validator
reads.  `urlsplit` first removes tab, carriage-return and newline bytes, then
splits scheme and netloc, then cuts fragment and query off the remainder. -/
def pyUrlparse (url : String) : ParsedUrl :=
  let cs := url.data.filter (fun c => c ≠ '\t' ∧ c ≠ '\r' ∧ c ≠ '\n')
  let (scheme, rest) := splitScheme cs
  let (netloc, rest2) := splitNetloc rest
  let path := (rest2.takeWhile (· ≠ '#')).takeWhile (· ≠ '?')
  { scheme := scheme, netloc := netloc, path := String.mk path }

/-- Python's `str.strip()` whitespace set. -/
def isPyWhitespace (c : Char) : Bool :=
  c = ' ' || c = '\t' || c = '\n' || c = '\r' || c = '\x0b' || c = '\x0c'

/-- Python's `str.strip()`. -/
def pyStrip (s : String) : String :=
  String.mk (((s.data.dropWhile isPyWhitespace).reverse.dropWhile isPyWhitespace).reverse)

/-- `ALLOWED_URL_SCHEMES` from `src/constants.py`. -/
def ALLOWED_URL_SCHEMES : List String := ["http", "https", "git"]

/-- The shell metacharacters of the first dangerous pattern. -/
def shellMetaChars : List Char := [';', '&', '|', Char.ofNat 96, '$']

/-- Test for the regex `[;&|` backtick `$]` of `validate_repo_url`. -/
def hasShellMeta (cs : List Char) : Bool :=
  cs.any (fun c => shellMetaChars.contains c)

/-- Test for the regex `\.\.` (a literal `..` substring). -/
def hasDotDot (cs : List Char) : Bool :=
  listInfix ['.', '.'] cs

/-- ASCII hexadecimal digit (the regex class `[0-9a-fA-F]`). -/
def isHexDig (c : Char) : Bool :=
  c.isDigit || ('a' ≤ c ∧ c ≤ 'f') || ('A' ≤ c ∧ c ≤ 'F')

/-- Test for the regex `%[0-9a-fA-F]{2}` (a percent-encoded octet). -/
def hasPctEncoded : List Char → Bool
  | '%' :: a :: b :: rest =>
    (isHexDig a && isHexDig b) || hasPctEncoded (a :: b :: rest)
  | _ :: rest => hasPctEncoded rest
  | [] => false

/-- The hostname extraction of `validate_repo_url`:
`parsed.netloc.split(':')[0].split('@')[-1].lower()`. -/
def hostnameOf (netloc : String) : List Char :=
  (((splitOnChar ':' netloc.data).headI).reverse.takeWhile (· ≠ '@')).reverse.map
    Char.toLower

/-- `RepositoryManager.validate_repo_url`, rule for rule: non-empty, strip,
parse, scheme allow-list, host present, hostname at least three characters,
no dangerous pattern in the raw (stripped) URL, path present and not bare
`/`.  `ValidationResult.invalidV` stands for the raised `InvalidURLError`. -/
def validate_repo_url (url : String) : ValidationResult :=
  if url = "" then ValidationResult.invalidV "URL cannot be empty"
  else
    let u := pyStrip url
    let parsed := pyUrlparse u
    let scheme := String.mk (lowerStr parsed.scheme)
    if ¬ALLOWED_URL_SCHEMES.contains scheme then
      ValidationResult.invalidV "URL scheme not allowed"
    else if parsed.netloc = "" then
      ValidationResult.invalidV "URL must include a host"
    else
      let hostname := hostnameOf parsed.netloc
      if hostname.isEmpty ∨ hostname.length < 3 then
        ValidationResult.invalidV "Invalid hostname"
      else if hasShellMeta u.data || hasDotDot u.data || hasPctEncoded u.data then
        ValidationResult.invalidV "URL contains potentially dangerous characters"
      else if parsed.path = "" ∨ parsed.path = "/" then
        ValidationResult.invalidV "URL must include a repository path"
      else
        ValidationResult.okV

/-! ## Concrete environments used as test inputs -/

/-- A job whose target directory already exists, whose user confirms the
overwrite (which succeeds), and whose URL is invalid. -/
def invalidUrlOverwriteEnv : JobEnv where
  preexists := true
  confirmOverwrite := true
  overwriteRmtreeOk := true
  urlValid := false
  cloneOk := false
  tech := Technology.unknown
  isInstalled := false
  installOk := false
  configureOk := false
  rollbackRmtreeOk := true

/-- A job that clones successfully, detects `unknown`, and whose rollback
removal fails (the clone directory is locked). -/
def unknownTechLockedEnv : JobEnv where
  preexists := false
  confirmOverwrite := false
  overwriteRmtreeOk := false
  urlValid := true
  cloneOk := true
  tech := Technology.unknown
  isInstalled := false
  installOk := false
  configureOk := false
  rollbackRmtreeOk := false

/-- A job that clones successfully, detects `unknown`, and whose rollback
removal succeeds. -/
def unknownTechCleanEnv : JobEnv where
  preexists := false
  confirmOverwrite := false
  overwriteRmtreeOk := false
  urlValid := true
  cloneOk := true
  tech := Technology.unknown
  isInstalled := false
  installOk := false
  configureOk := false
  rollbackRmtreeOk := true

/-- A Java job in which every stage up to configuration succeeds. -/
def javaJobEnv : JobEnv where
  preexists := false
  confirmOverwrite := false
  overwriteRmtreeOk := false
  urlValid := true
  cloneOk := true
  tech := Technology.java_springboot
  isInstalled := true
  installOk := false
  configureOk := true
  rollbackRmtreeOk := true

/-- A successful download-and-extract of an archive holding one entry under
top-level directory `a` and one top-level plain file `b`. -/
def mixedRootsDae : DaeEnv where
  downloadOk := true
  zipAfterFailedDownload := false
  namelist := ["a/x", "b"]
  mkdirOutcome := PhaseOutcome.okP
  openOutcome := PhaseOutcome.okP
  extractOutcome := PhaseOutcome.okP
  cleanupZip := true
  unlinkOutcome := PhaseOutcome.okP

/-- A successful download-and-extract of an archive whose entries all live
under the single top-level directory `m`. -/
def singleRootDae : DaeEnv where
  downloadOk := true
  zipAfterFailedDownload := false
  namelist := ["m/x", "m/y/z"]
  mkdirOutcome := PhaseOutcome.okP
  openOutcome := PhaseOutcome.okP
  extractOutcome := PhaseOutcome.okP
  cleanupZip := true
  unlinkOutcome := PhaseOutcome.okP

/-- A download-and-extract whose extraction dies on a `PermissionError`. -/
def permFailDae : DaeEnv where
  downloadOk := true
  zipAfterFailedDownload := false
  namelist := ["m/x"]
  mkdirOutcome := PhaseOutcome.okP
  openOutcome := PhaseOutcome.okP
  extractOutcome := PhaseOutcome.permP
  cleanupZip := true
  unlinkOutcome := PhaseOutcome.okP

/-- A host on which the JDK and Maven tool directories are already
present. -/
def javaReadyEnv : JavaEnv where
  javaDirExists := true
  mavenDirExists := true
  pomExists := true
  detectedVersion := "17"
  javaDownloadOk := false
  javaExtractCreatesDir := false
  mavenMirrorOk := [false, false, false]
  mavenExtractOk := false
  apacheDirFound := false

/-- A host on which the Git tool directory is already present. -/
def gitReadyEnv : GitEnv where
  gitDirExists := true
  dae := permFailDae

/-- A host on which the Node.js tool directory is already present. -/
def nodeReadyEnv : NodeEnv where
  nodeInstalled := false
  nodejsDirExists := true
  dae := permFailDae
  renameOk := false

/-- A host on which Python already answers its version probe. -/
def pyReadyEnv : PyEnv where
  pythonInstalled := true

/-- A Maven project whose `mvn clean install` dependency step fails. -/
def mavenBuildFailEnv : JavaConfigEnv where
  pomExists := true
  gradleFileExists := false
  mavenInstalled := true
  installMavenOk := false
  appPropsExists := false
  proxyConfigured := false
  mavenBuildOk := false
  gradleBuildOk := false

/-! ## Theorems -/

/-- C1 counterexample: `mavenOnlyRepo` has `pom.xml` in its root and no Java
marker file containing a Spring indicator, yet `detect` does not return
`JAVA_MAVEN` (it returns `JAVA_SPRINGBOOT`, line 81 of `detector.py`). -/
theorem detect_plain_maven_not_java_maven :
    mavenOnlyRepo.rootFiles.contains "pom.xml" = true ∧
    (∀ f ∈ springMarkerFiles, check_indicators mavenOnlyRepo f springIndicators = false) ∧
    detect mavenOnlyRepo ≠ Technology.java_maven ∧
    detect mavenOnlyRepo = Technology.java_springboot := by
  refine ⟨by decide, by decide, by decide, by decide⟩

/-- C1 (amended): a repository whose root contains `pom.xml` while no Java
marker file carries a Spring indicator is detected as `JAVA_SPRINGBOOT` (the
detector deliberately reuses the Spring Boot enum value for plain Maven so it
routes to the same installer), not `JAVA_MAVEN`. -/
theorem detect_plain_maven_is_springboot (repo : Repo)
    (hex : repo.pathExists = true)
    (hpom : repo.rootFiles.contains "pom.xml" = true)
    (hclean : ∀ f ∈ springMarkerFiles,
      check_indicators repo f springIndicators = false) :
    detect repo = Technology.java_springboot := by
  have hsb : is_spring_boot_project repo repo.rootFiles = false := by
    unfold is_spring_boot_project
    rw [List.any_eq_false]
    intro f hf
    rw [hclean f hf]
    simp
  have hm : is_maven_project repo.rootFiles = true := hpom
  simp [detect, hex, hsb, hm]

/-- C1 witness: the amended theorem applied to `mavenOnlyRepo`. -/
theorem detect_plain_maven_is_springboot_witness :
    detect mavenOnlyRepo = Technology.java_springboot :=
  detect_plain_maven_is_springboot mavenOnlyRepo (by decide) (by decide) (by decide)

/-- C2 counterexample: on a digest mismatch where the destination unlink
itself raises (a locked file, caught by the `except IOError` handler),
`download_file` reports failure but the corrupt destination file still exists
afterward, against the claim. -/
theorem download_file_mismatch_file_remains :
    lowerStr ((fun _ : List Nat => "ab12") [0]) ≠ lowerStr "cd34" ∧
    download_file (fun _ => "ab12") [0] (some "cd34") false =
      { success := false, destExists := true } := by
  refine ⟨by decide, by decide⟩

/-- C2 (amended): with an expected checksum supplied, a case-insensitive
digest mismatch makes `download_file` return `False`, and the destination
does not exist afterward provided its unlink succeeds — if the unlink raises,
the error is caught, failure is still reported, and the file remains on
disk; a case-insensitive match passes with the destination in place. -/
theorem download_file_checksum (sha256hex : List Nat → String)
    (body1 body2 body3 : List Nat) (exp1 exp2 exp3 : String) (u3 : Bool)
    (hmis1 : lowerStr (sha256hex body1) ≠ lowerStr exp1)
    (hmis2 : lowerStr (sha256hex body2) ≠ lowerStr exp2)
    (hmatch : lowerStr (sha256hex body3) = lowerStr exp3) :
    download_file sha256hex body1 (some exp1) true =
      { success := false, destExists := false } ∧
    download_file sha256hex body2 (some exp2) false =
      { success := false, destExists := true } ∧
    download_file sha256hex body3 (some exp3) u3 =
      { success := true, destExists := true } := by
  refine ⟨?_, ?_, ?_⟩
  · simp [download_file, hmis1]
  · simp [download_file, hmis2]
  · simp [download_file, hmatch]

/-- C2 witness: a concrete digest function and bodies, with the matching case
differing only in letter case and both unlink outcomes exercised. -/
theorem download_file_checksum_witness :
    download_file (fun _ => "AB12") [0] (some "cd34") true =
      { success := false, destExists := false } ∧
    download_file (fun _ => "AB12") [0] (some "cd34") false =
      { success := false, destExists := true } ∧
    download_file (fun _ => "AB12") [0] (some "ab12") true =
      { success := true, destExists := true } :=
  download_file_checksum (fun _ => "AB12") [0] [0] [0] "cd34" "cd34" "ab12" true
    (by decide) (by decide) (by decide)

/-- C7 counterexample: with a retry bound of `0`, `safe_rmtree` on a path
that does not exist falls out of the empty loop and returns `False`, not the
immediate `True` the claim states. -/
theorem safe_rmtree_zero_retries_not_exists :
    (safe_rmtree (fun _ => RmOutcome.notExistsO) 0).result = false := by
  decide

/-- C7 (amended): on a path whose removal always raises a lock error,
`safe_rmtree` performs exactly `maxRetries` removal attempts with a sleep
between consecutive attempts and none after the last, returning `false`;
when at least one iteration runs, a non-existent path returns `true` at once
with no attempt, and a non-lock `OSError` aborts at once with `false` after
a single attempt and no sleep. -/
theorem safe_rmtree_retry_bound (o1 o2 o3 : Nat → RmOutcome) (m1 m2 m3 : Nat)
    (h1 : ∀ i, o1 i = RmOutcome.permErrorO)
    (h2 : o2 0 = RmOutcome.notExistsO) (hm2 : 1 ≤ m2)
    (h3 : o3 0 = RmOutcome.osErrorO) (hm3 : 1 ≤ m3) :
    safe_rmtree o1 m1 = ⟨false, m1, m1 - 1⟩ ∧
    safe_rmtree o2 m2 = ⟨true, 0, 0⟩ ∧
    safe_rmtree o3 m3 = ⟨false, 1, 0⟩ := by
  refine ⟨?_, ?_, ?_⟩
  · have key : ∀ rem i, rmLoop o1 i rem = ⟨false, rem, rem - 1⟩ := by
      intro rem
      induction rem with
      | zero => intro i; rfl
      | succ r ih =>
        intro i
        unfold rmLoop
        rw [h1 i]
        by_cases hr : r = 0
        · subst hr; simp
        · rw [if_neg hr, ih (i + 1)]
          have : r - 1 + 1 = r := Nat.succ_pred_eq_of_pos (Nat.pos_of_ne_zero hr)
          simp [this]
    exact key m1 0
  · obtain ⟨k, hk⟩ := Nat.exists_eq_add_of_le hm2
    rw [Nat.add_comm] at hk
    subst hk
    simp [safe_rmtree, rmLoop, h2]
  · obtain ⟨k, hk⟩ := Nat.exists_eq_add_of_le hm3
    rw [Nat.add_comm] at hk
    subst hk
    simp [safe_rmtree, rmLoop, h3]

/-- C7 witness: the amended theorem at the default bound of three retries. -/
theorem safe_rmtree_retry_bound_witness :
    safe_rmtree (fun _ => RmOutcome.permErrorO) 3 = ⟨false, 3, 2⟩ ∧
    safe_rmtree (fun _ => RmOutcome.notExistsO) 3 = ⟨true, 0, 0⟩ ∧
    safe_rmtree (fun _ => RmOutcome.osErrorO) 3 = ⟨false, 1, 0⟩ :=
  safe_rmtree_retry_bound
    (fun _ => RmOutcome.permErrorO) (fun _ => RmOutcome.notExistsO)
    (fun _ => RmOutcome.osErrorO) 3 3 3
    (fun _ => rfl) rfl (by decide) rfl (by decide)

/-- C8: the validator rejects a URL with a shell metacharacter, rejects the
`ftp` scheme, rejects the empty string, and accepts a well-formed `https`
repository URL. -/
theorem validate_repo_url_cases :
    validate_repo_url "https://github.com/user/repo;rm -rf /" =
      ValidationResult.invalidV "URL contains potentially dangerous characters" ∧
    validate_repo_url "ftp://host/path" =
      ValidationResult.invalidV "URL scheme not allowed" ∧
    validate_repo_url "" = ValidationResult.invalidV "URL cannot be empty" ∧
    validate_repo_url "https://github.com/user/repo.git" = ValidationResult.okV := by
  refine ⟨by decide, by decide, by decide, by decide⟩

/-- C3 counterexample: with a pre-existing directory at the target path, a
confirmed overwrite and an invalid URL, the job fails without cloning or
rolling back, but the pre-existing directory has been removed: it no longer
exists afterward, against the claim. -/
theorem process_invalid_url_removes_preexisting :
    invalidUrlOverwriteEnv.urlValid = false ∧
    invalidUrlOverwriteEnv.preexists = true ∧
    (process_repository invalidUrlOverwriteEnv).success = false ∧
    (process_repository invalidUrlOverwriteEnv).cloneAttempted = false ∧
    (process_repository invalidUrlOverwriteEnv).dirExists = false := by
  refine ⟨rfl, rfl, by decide, by decide, by decide⟩

/-- C3 (amended): for every job whose URL fails validation, processing ends
in failure with no clone attempted and no rollback executed; a directory
already at the target path survives iff the user declines the overwrite or
its removal fails — if the user confirms and the removal succeeds, the
pre-existing directory is removed before validation even though the URL is
invalid. -/
theorem process_invalid_url (e : JobEnv) (h : e.urlValid = false) :
    (process_repository e).success = false ∧
    (process_repository e).cloneAttempted = false ∧
    (process_repository e).rollbackRan = false ∧
    (process_repository e).dirExists =
      (e.preexists && !(e.confirmOverwrite && e.overwriteRmtreeOk)) := by
  obtain ⟨pre, conf, ow, uv, cl, tech, inst, io, co, rb⟩ := e
  simp only at h
  subst h
  cases pre <;> cases conf <;> cases ow <;>
    simp [process_repository]

/-- C3 witness: the amended theorem at `invalidUrlOverwriteEnv`. -/
theorem process_invalid_url_witness :
    (process_repository invalidUrlOverwriteEnv).success = false ∧
    (process_repository invalidUrlOverwriteEnv).cloneAttempted = false ∧
    (process_repository invalidUrlOverwriteEnv).rollbackRan = false ∧
    (process_repository invalidUrlOverwriteEnv).dirExists =
      (invalidUrlOverwriteEnv.preexists &&
        !(invalidUrlOverwriteEnv.confirmOverwrite &&
          invalidUrlOverwriteEnv.overwriteRmtreeOk)) :=
  process_invalid_url invalidUrlOverwriteEnv rfl

/-- C4 counterexample: a job that clones successfully and detects `unknown`
ends in failure, but when the rollback removal itself fails (locked clone
directory) the clone directory still exists afterward, against the claim. -/
theorem process_unknown_tech_locked_dir_remains :
    unknownTechLockedEnv.cloneOk = true ∧
    unknownTechLockedEnv.tech = Technology.unknown ∧
    (process_repository unknownTechLockedEnv).cloneAttempted = true ∧
    (process_repository unknownTechLockedEnv).success = false ∧
    (process_repository unknownTechLockedEnv).dirExists = true := by
  refine ⟨rfl, rfl, by decide, by decide, by decide⟩

/-- C4 (amended): for every job in which cloning is attempted and succeeds
and detection returns `unknown`, the job ends in failure and rollback runs;
the freshly cloned directory does not exist afterward provided the rollback
removal succeeds (a locked directory survives, with the failure only
reported). -/
theorem process_unknown_tech_rollback (e : JobEnv)
    (hattempt : (process_repository e).cloneAttempted = true)
    (hclone : e.cloneOk = true)
    (htech : e.tech = Technology.unknown)
    (hrb : e.rollbackRmtreeOk = true) :
    (process_repository e).success = false ∧
    (process_repository e).rollbackRan = true ∧
    (process_repository e).dirExists = false := by
  obtain ⟨pre, conf, ow, uv, cl, tech, inst, io, co, rb⟩ := e
  simp only at hattempt hclone htech hrb
  subst hclone htech hrb
  cases pre <;> cases conf <;> cases ow <;> cases uv <;>
    simp_all [process_repository]

/-- C4 witness: the amended theorem at `unknownTechCleanEnv`. -/
theorem process_unknown_tech_rollback_witness :
    (process_repository unknownTechCleanEnv).success = false ∧
    (process_repository unknownTechCleanEnv).rollbackRan = true ∧
    (process_repository unknownTechCleanEnv).dirExists = false :=
  process_unknown_tech_rollback unknownTechCleanEnv (by decide) rfl rfl rfl

/-- C9: `JavaInstaller.configure` returns `True` even when the Maven or
Gradle dependency-install step runs and fails, so a Java job whose clone,
detection and installation succeeded still ends successfully (reaches READY,
with the clone directory in place). -/
theorem java_build_failure_nonfatal (e : JobEnv) (c : JavaConfigEnv)
    (hpre : e.preexists = true → e.confirmOverwrite = true ∧ e.overwriteRmtreeOk = true)
    (hurl : e.urlValid = true)
    (hclone : e.cloneOk = true)
    (htech : e.tech = Technology.java_springboot)
    (hinstall : e.isInstalled = true ∨ e.installOk = true)
    (hcfg : e.configureOk = (javaConfigure c).success)
    (_hbuild : ((javaConfigure c).ranMavenBuild = true ∧ c.mavenBuildOk = false) ∨
      ((javaConfigure c).ranGradleBuild = true ∧ c.gradleBuildOk = false)) :
    (javaConfigure c).success = true ∧
    (process_repository e).success = true ∧
    (process_repository e).dirExists = true := by
  have hsucc : (javaConfigure c).success = true := rfl
  rw [hsucc] at hcfg
  obtain ⟨pre, conf, ow, uv, cl, tech, inst, io, co, rb⟩ := e
  simp only at hpre hurl hclone htech hcfg hinstall
  subst hurl hclone htech hcfg
  refine ⟨hsucc, ?_⟩
  cases pre <;> cases conf <;> cases ow <;> cases inst <;> cases io <;>
    simp_all [process_repository, installerAvailable]

/-- C9 witness: the theorem at `javaJobEnv` and `mavenBuildFailEnv`. -/
theorem java_build_failure_nonfatal_witness :
    (javaConfigure mavenBuildFailEnv).success = true ∧
    (process_repository javaJobEnv).success = true ∧
    (process_repository javaJobEnv).dirExists = true :=
  java_build_failure_nonfatal javaJobEnv mavenBuildFailEnv (by decide) rfl rfl rfl
    (Or.inl rfl) rfl (Or.inl ⟨by decide, rfl⟩)

/-- Helper: a list with a member all of whose elements are equal to it
deduplicates to the singleton of that element. -/
theorem dedup_eq_singleton_of {α : Type} [DecidableEq α] (l : List α) (a : α)
    (ha : a ∈ l) (hall : ∀ x ∈ l, x = a) : l.dedup = [a] := by
  have hmem : ∀ x : α, x ∈ l.dedup ↔ x ∈ l := fun x => List.mem_dedup
  have hnd := l.nodup_dedup
  rcases hd : l.dedup with _ | ⟨b, t⟩
  · exact absurd ((hmem a).mpr ha) (by rw [hd]; simp)
  · have hb : b = a := hall b ((hmem b).mp (by rw [hd]; exact List.mem_cons_self b t))
    have ht : t = [] := by
      rcases t with _ | ⟨y, t2⟩
      · rfl
      · exfalso
        have hy : y ∈ l.dedup := by
          rw [hd]; exact List.mem_cons_of_mem b (List.mem_cons_self y t2)
        have hya : y = a := hall y ((hmem y).mp hy)
        rw [hd] at hnd
        have hbn := (List.nodup_cons.mp hnd).1
        exact hbn (by rw [hb, hya]; exact List.mem_cons_self a t2)
    rw [hb, ht]

/-- Helper: characterization of the `extracted_path` computed by
`download_and_extract` in terms of the entries of the archive: it is `r`
exactly when some entry contributes top-level directory `r` and every entry
that contributes a top-level directory contributes `r`. -/
theorem extractedRoot_eq_some_iff (nl : List String) (r : String) :
    extractedRoot nl = some r ↔
      (∃ n ∈ nl, topDir n = some r) ∧
        ∀ n ∈ nl, ∀ x, topDir n = some x → x = r := by
  unfold extractedRoot rootDirsOf
  constructor
  · intro h
    by_cases hlen : (nl.filterMap topDir).dedup.length = 1
    · rw [if_pos hlen] at h
      obtain ⟨a, ha⟩ := List.length_eq_one.mp hlen
      rw [ha] at h
      simp only [List.headI] at h
      have har : a = r := Option.some.inj h
      subst har
      constructor
      · have h1 : a ∈ (nl.filterMap topDir).dedup := by
          rw [ha]; exact List.mem_cons_self a []
        obtain ⟨n, hn, htop⟩ := List.mem_filterMap.mp (List.mem_dedup.mp h1)
        exact ⟨n, hn, htop⟩
      · intro n hn x htop
        have hx : x ∈ (nl.filterMap topDir).dedup :=
          List.mem_dedup.mpr (List.mem_filterMap.mpr ⟨n, hn, htop⟩)
        rw [ha] at hx
        simpa using hx
    · rw [if_neg hlen] at h
      exact absurd h (by simp)
  · rintro ⟨⟨n0, hn0, h0⟩, hall⟩
    have hrL : r ∈ nl.filterMap topDir := List.mem_filterMap.mpr ⟨n0, hn0, h0⟩
    have hallL : ∀ x ∈ nl.filterMap topDir, x = r := by
      intro x hx
      obtain ⟨n, hn, htop⟩ := List.mem_filterMap.mp hx
      exact hall n hn x htop
    rw [dedup_eq_singleton_of (nl.filterMap topDir) r hrL hallL]
    simp [List.headI]

/-- C5 counterexample: an archive with entries `a/x` and `b` is processed
successfully and a non-null root `a` is reported, although not every entry
shares a common top-level directory (`b` is a top-level file). -/
theorem dae_root_despite_toplevel_file :
    (download_and_extract mixedRootsDae).success = true ∧
    (download_and_extract mixedRootsDae).root = some "a" ∧
    ¬∃ r : String, ∀ n ∈ mixedRootsDae.namelist, topDir n = some r := by
  refine ⟨by decide, by decide, ?_⟩
  rintro ⟨r, h⟩
  have hb := h "b" (by decide)
  have hnone : topDir "b" = none := by decide
  rw [hnone] at hb
  exact Option.noConfusion hb

/-- C5 (amended): a successful `download_and_extract` reports root `r` iff
some archive entry contributes top-level directory `r` and every entry that
has more than one path component contributes that same `r`; entries without
a path separator are ignored by the computation. -/
theorem dae_extracted_root (e : DaeEnv)
    (hs : (download_and_extract e).success = true) (r : String) :
    (download_and_extract e).root = some r ↔
      (∃ n ∈ e.namelist, topDir n = some r) ∧
        ∀ n ∈ e.namelist, ∀ x, topDir n = some x → x = r := by
  obtain ⟨dl, zf, nl, mk, op, ex, cz, ul⟩ := e
  have hroot : (download_and_extract ⟨dl, zf, nl, mk, op, ex, cz, ul⟩).root =
      extractedRoot nl := by
    cases dl <;> cases mk <;> cases op <;> cases ex <;> cases cz <;> cases ul <;>
      simp_all [download_and_extract, daePhaseFail]
  rw [hroot]
  exact extractedRoot_eq_some_iff nl r

/-- C5 witness: the amended theorem at `singleRootDae` with root `m`. -/
theorem dae_extracted_root_witness :
    (download_and_extract singleRootDae).root = some "m" ↔
      (∃ n ∈ singleRootDae.namelist, topDir n = some "m") ∧
        ∀ n ∈ singleRootDae.namelist, ∀ x, topDir n = some x → x = "m" :=
  dae_extracted_root singleRootDae (by decide) "m"

/-- C10: when extraction of a successfully downloaded archive fails, the
archive file has been deleted exactly when the failure is the corrupt-archive
(`BadZipFile`) error; a permission or I/O failure leaves it on disk. -/
theorem dae_archive_retention (e : DaeEnv)
    (hdl : e.downloadOk = true)
    (hfail : (download_and_extract e).success = false) :
    ((download_and_extract e).zipOnDisk = false ↔
      (download_and_extract e).error = DaeError.badZipE) := by
  obtain ⟨dl, zf, nl, mk, op, ex, cz, ul⟩ := e
  simp only at hdl
  subst hdl
  cases mk <;> cases op <;> cases ex <;> cases cz <;> cases ul <;>
    simp_all [download_and_extract, daePhaseFail]

/-- C10 witness: a permission failure during extraction leaves the archive
on disk. -/
theorem dae_archive_retention_witness :
    (download_and_extract permFailDae).zipOnDisk = false ↔
      (download_and_extract permFailDae).error = DaeError.badZipE :=
  dae_archive_retention permFailDae rfl (by decide)

/-- Helper: `JavaInstaller.install` on a host whose JDK directory exists
(and whose Maven directory exists if the project has a `pom.xml`) performs no
download, succeeds, and leaves the host unchanged. -/
theorem javaInstall_dirs_present (t : JavaEnv) (h1 : t.javaDirExists = true)
    (h2 : t.pomExists = true → t.mavenDirExists = true) :
    javaInstall t = { success := true, downloads := 0, post := t } := by
  by_cases hp : t.pomExists = true
  · have hm := h2 hp
    simp [javaInstall, javaInstallTail, install_maven, h1, hp, hm]
  · have hp2 : t.pomExists = false := by
      revert hp; cases t.pomExists <;> simp
    simp [javaInstall, javaInstallTail, h1, hp2]

/-- C6: for each installer, a second `install()` call on the state left by a
first call after which the tool's installation directories exist (Python has
none; its analogue is the version probe answering) performs zero network
downloads and returns success. -/
theorem install_idempotent (je : JavaEnv) (ge : GitEnv) (ne : NodeEnv) (pe : PyEnv)
    (hj1 : (javaInstall je).post.javaDirExists = true)
    (hj2 : (javaInstall je).post.pomExists = true →
      (javaInstall je).post.mavenDirExists = true)
    (hg : (gitInstall ge).post.gitDirExists = true)
    (hn : (nodejsInstall ne).post.nodejsDirExists = true)
    (hp : (pythonInstall pe).post.pythonInstalled = true) :
    (javaInstall (javaInstall je).post).success = true ∧
    (javaInstall (javaInstall je).post).downloads = 0 ∧
    (gitInstall (gitInstall ge).post).success = true ∧
    (gitInstall (gitInstall ge).post).downloads = 0 ∧
    (nodejsInstall (nodejsInstall ne).post).success = true ∧
    (nodejsInstall (nodejsInstall ne).post).downloads = 0 ∧
    (pythonInstall (pythonInstall pe).post).success = true ∧
    (pythonInstall (pythonInstall pe).post).downloads = 0 := by
  have hJ := javaInstall_dirs_present ((javaInstall je).post) hj1 hj2
  refine ⟨by rw [hJ], by rw [hJ], ?_, ?_, ?_, ?_, ?_, ?_⟩
  · set t := (gitInstall ge).post with ht
    simp [gitInstall, hg]
  · set t := (gitInstall ge).post with ht
    simp [gitInstall, hg]
  · set t := (nodejsInstall ne).post with ht
    cases hni : t.nodeInstalled <;> simp [nodejsInstall, hn, hni]
  · set t := (nodejsInstall ne).post with ht
    cases hni : t.nodeInstalled <;> simp [nodejsInstall, hn, hni]
  · set t := (pythonInstall pe).post with ht
    simp [pythonInstall, hp]
  · set t := (pythonInstall pe).post with ht
    simp [pythonInstall, hp]

/-- C6 witness: hosts on which each tool directory (or, for Python, the
version probe) is already satisfied. -/
theorem install_idempotent_witness :
    (javaInstall (javaInstall javaReadyEnv).post).success = true ∧
    (javaInstall (javaInstall javaReadyEnv).post).downloads = 0 ∧
    (gitInstall (gitInstall gitReadyEnv).post).success = true ∧
    (gitInstall (gitInstall gitReadyEnv).post).downloads = 0 ∧
    (nodejsInstall (nodejsInstall nodeReadyEnv).post).success = true ∧
    (nodejsInstall (nodejsInstall nodeReadyEnv).post).downloads = 0 ∧
    (pythonInstall (pythonInstall pyReadyEnv).post).success = true ∧
    (pythonInstall (pythonInstall pyReadyEnv).post).downloads = 0 :=
  install_idempotent javaReadyEnv gitReadyEnv nodeReadyEnv pyReadyEnv
    (by decide) (by decide) (by decide) (by decide) (by decide)

end DevStart
